import Mathlib

/-!
Verification of the image-analysis pipeline in
`analyze_gsimg-gem-maps-oldauth.py` (repository `wescpy/analyze_gsimg`).

The Python module wires five remote collaborators (Drive file store, GCS
object store, Vision label service, Gemini generative service, Sheets
tabular store) into a fixed single-pass pipeline driven by `main`.  We
shallow-embed the module: each remote collaborator becomes a field of an
explicit environment `Env` of pure response functions, byte strings become
`List Nat`, Python floats become `ℚ` with explicit decimal rounding, and
every collaborator invocation is recorded in an event trace so that
call-count and noninterference properties are statable.  Python falsiness
(`if not rsp`) is modelled case by case: `None` as `Option.none`, the empty
string, the empty list, and the integer `0` as themselves.
-/

namespace AnalyzeGsimg

/-- One entry of the Drive `files().list` response: the fields requested by
`drive_get_img` are `id,name,mimeType,modifiedTime`. -/
structure DriveFile where
  id : String
  name : String
  mimeType : String
  modifiedTime : String
deriving DecidableEq, Repr

/-- The `location` sub-object of Drive `imageMediaMetadata`.  The Python code
interpolates the latitude/longitude values directly into an f-string, so we
carry their rendered forms. -/
structure Location where
  latitude : String
  longitude : String
deriving DecidableEq, Repr

/-- Drive `imageMediaMetadata`: `drive_geoloc_maps` only looks at whether a
`location` key is present. -/
structure ImageMetadata where
  location : Option Location
deriving DecidableEq, Repr

/-- GCS `objects().insert` response restricted to the requested fields
`bucket,name`. -/
structure GcsRsp where
  bucket : String
  name : String
deriving DecidableEq, Repr

/-- One Vision `labelAnnotations` entry: confidence score and description.
The score is a rational standing for the Python float. -/
structure VisionLabel where
  score : ℚ
  description : String
deriving DecidableEq, Repr

/-- Sheets append response restricted to `updates(updatedCells)`; the inner
field is optional because `rsp.get('updates').get('updatedCells')` yields
`None` when the key is missing. -/
structure SheetRsp where
  updatedCells : Option Nat
deriving DecidableEq, Repr

/-- The record returned by `drive_get_img` as the Python tuple
`(fname, mtype, ftime, data, maps)`. -/
structure SourceFile where
  fname : String
  mtype : String
  ftime : String
  data : List Nat
  maps : String
deriving DecidableEq, Repr

/-- Environment of collaborator responses.  Each field is the pure
input/output behaviour of one remote operation used by the module; transport
exceptions are outside the model (the spec says they propagate unchanged).
The Vision field receives the raw bytes: the base64 encoding performed in
`main` is an injective pass-through belonging to the wire format. -/
structure Env where
  apiKey : String
  driveList : String → List DriveFile
  imageMetadata : String → Option ImageMetadata
  downloadMedia : String → List Nat
  gcsInsert : String → String → List Nat → String → Option GcsRsp
  visionLabels : List Nat → Nat → Option (List VisionLabel)
  genaiText : List Nat → String
  sheetAppend : String → List String → Option SheetRsp

/-- Collaborator invocations observable in a run, one constructor per remote
operation of the module.  `gcsDeleteCall` is part of the object-store API
surface but is never emitted by the pipeline (no rollback). -/
inductive Event where
  | driveListCall (fname : String)
  | driveMediaCall (fileId : String)
  | driveMetaCall (fileId : String)
  | gcsInsertCall (bucket : String) (name : String)
  | gcsDeleteCall (bucket : String) (name : String)
  | visionCall (top : Nat)
  | genaiCall
  | sheetAppendCall (sheet : String) (row : List String)
deriving DecidableEq, Repr

/-- Left-pad a string with spaces to a minimum width, as the width field of a
Python percent-format does. -/
def padLeft (w : Nat) (s : String) : String :=
  String.mk (List.replicate (w - s.length) ' ') ++ s

/-- Render a natural number below 100 with two digits. -/
def pad2 (k : Nat) : String :=
  if k < 10 then "0" ++ toString k else toString k

/-- Render a rational to exactly two decimal places, the `%.2f` / `:.2f`
conversion of the source.  Decimal round-half-up over `ℚ` stands in for
IEEE-754 binary rounding; the two agree on every value exactly representable
to two decimals.  The integer rendered is `⌊q * 100 + 1 / 2⌋`, computed as
`(200 * q.num + q.den).fdiv (2 * q.den)` so that it evaluates by kernel
reduction. -/
def format2dec (q : ℚ) : String :=
  let n : ℤ := Int.fdiv (200 * q.num + (q.den : ℤ)) (2 * (q.den : ℤ))
  let m : Nat := n.natAbs
  let s := toString (m / 100) ++ "." ++ pad2 (m % 100)
  if n < 0 then "-" ++ s else s

/-- Python `str.strip()`: drop whitespace from both ends. -/
def pyStrip (s : String) : String :=
  String.mk ((((s.data.dropWhile Char.isWhitespace).reverse).dropWhile
    Char.isWhitespace).reverse)

/-- String prefix test over the character list (semantics of
`String.startsWith`, stated on `List Char` so it evaluates by reduction). -/
def startsWithS (s p : String) : Bool :=
  List.isPrefixOf p.data s.data

/-- String suffix test over the character list (semantics of
`String.endsWith`). -/
def endsWithS (s p : String) : Bool :=
  List.isPrefixOf p.data.reverse s.data.reverse

/-- Python `os.path.join` restricted to two arguments as used in `main`. -/
def path_join (a b : String) : String :=
  if startsWithS b "/" then b
  else if a = "" then b
  else if endsWithS a "/" then a ++ b
  else a ++ "/" ++ b

/-- Source `k_ize`: convert a byte count to a kilobyte string via
`'%6.2fK' % (nbytes/1000.)`. -/
def k_ize (nbytes : Nat) : String :=
  padLeft 6 (format2dec (mkRat nbytes 1000)) ++ "K"

/-- Source constant `MAPS_API_URL`. -/
def MAPS_API_URL : String :=
  "maps.googleapis.com/maps/api/staticmap?size=480x480&markers="

/-- URL computed by `drive_geoloc_maps` from the metadata response: empty
when the metadata is absent or lacks a `location` key, otherwise the Maps
Static API URL with the latitude and longitude interpolated. -/
def geoloc_url (env : Env) (file_id : String) : String :=
  match env.imageMetadata file_id with
  | none => ""
  | some imd =>
    match imd.location with
    | none => ""
    | some loc =>
      MAPS_API_URL ++ loc.latitude ++ "," ++ loc.longitude ++ "&key="
        ++ env.apiKey

/-- Source `drive_geoloc_maps`: return the Maps API URL if image geolocation
is found, or the empty string otherwise.  The Drive metadata query is
recorded as a `driveMetaCall` event. -/
def drive_geoloc_maps (env : Env) (file_id : String) : String × List Event :=
  (geoloc_url env file_id, [Event.driveMetaCall file_id])

/-- Source `drive_get_img`: search Drive for the file by name, and if any
match exists take the first one, download its bytes and resolve geolocation;
return `none` when the search comes back empty. -/
def drive_get_img (env : Env) (fname : String) :
    Option SourceFile × List Event :=
  match env.driveList fname with
  | [] => (none, [Event.driveListCall fname])
  | target :: _ =>
    let binary := env.downloadMedia target.id
    let geo := drive_geoloc_maps env target.id
    (some ⟨target.name, target.mimeType, target.modifiedTime, binary,
        geo.fst⟩,
      Event.driveListCall fname :: Event.driveMediaCall target.id :: geo.snd)

/-- Source `gcs_blob_upload`: one multipart insert into the GCS bucket. -/
def gcs_blob_upload (env : Env) (fname bucket : String) (media : List Nat)
    (mimetype : String) : Option GcsRsp × List Event :=
  (env.gcsInsert bucket fname media mimetype,
    [Event.gcsInsertCall bucket fname])

/-- Render one Vision label as `(<score*100 to 2 decimals>%) <description>`;
`mkRat (score.num * 100) score.den` is `score * 100` (lemma
`mkRat_num_mul_100` below), written with `mkRat` for kernel evaluation. -/
def fmtLabel (label : VisionLabel) : String :=
  "(" ++ format2dec (mkRat (label.score.num * 100) label.score.den)
    ++ "%) " ++ label.description

/-- Source `vision_label_img`: request label detection; when the response
carries a `labelAnnotations` key, join the formatted labels with a comma and
a space in service order, otherwise return `none`. -/
def vision_label_img (env : Env) (img : List Nat) (top : Nat) :
    Option String × List Event :=
  (match env.visionLabels img top with
   | none => none
   | some labels => some (String.intercalate ", " (labels.map fmtLabel)),
   [Event.visionCall top])

/-- Source `genai_analyze_img`: submit the image to the generative model and
return the stripped response text. -/
def genai_analyze_img (env : Env) (media : List Nat) : String × List Event :=
  (pyStrip (env.genaiText media), [Event.genaiCall])

/-- Source `sheet_append_row`: append the row; on a truthy response return
its `updates.updatedCells` count, else `none`. -/
def sheet_append_row (env : Env) (sheet : String) (row : List String) :
    Option Nat × List Event :=
  (match env.sheetAppend sheet row with
   | none => none
   | some rsp => rsp.updatedCells,
   [Event.sheetAppendCall sheet row])

/-- The `=HYPERLINK` cell for the archived object built in `main`. -/
def hyperCell (bucket gcsname fname : String) : String :=
  "=HYPERLINK(\"storage.cloud.google.com/" ++ bucket ++ "/" ++ gcsname
    ++ "\", \"" ++ fname ++ "\")"

/-- The `=HYPERLINK` cell for the Maps photo-location link built in `main`. -/
def mapsCell (maps : String) : String :=
  "=HYPERLINK(\"" ++ maps ++ "\", \"Photo location\")"

/-- Row assembly of `main`: the seven fixed cells (folder, hyperlink, media
type, timestamp, formatted size, classification, description), plus the
optional trailing map cell exactly when the geolocation string is
non-empty. -/
def buildRow (bucket folder : String) (sf : SourceFile) (viz gem : String) :
    List String :=
  let gcsname := path_join folder sf.fname
  let row0 := [folder, hyperCell bucket gcsname sf.fname, sf.mtype, sf.ftime,
    k_ize sf.data.length, viz, gem]
  if sf.maps = "" then row0 else row0 ++ [mapsCell sf.maps]

/-- Verbose message printed after the Fetch stage (the unbalanced parenthesis
is faithful to the source f-string). -/
def dlMsg (sf : SourceFile) : String :=
  "\n* Downloaded \x27" ++ sf.fname ++ "\x27 (" ++ sf.mtype ++ ", "
    ++ sf.ftime ++ ", size: " ++ toString sf.data.length

/-- Verbose message printed after the Archive stage. -/
def upMsg (g : GcsRsp) : String :=
  "\n* Uploaded \x27" ++ g.name ++ "\x27 to GCS bucket \x27" ++ g.bucket
    ++ "\x27\x27"

/-- Verbose message printed after the Classification stage. -/
def vizMsg (top : Nat) (viz : String) : String :=
  "\n* Top " ++ toString top ++ " labels from Vision API: " ++ viz

/-- Verbose message printed after the Description stage. -/
def gemMsg (gem : String) : String :=
  "\n* Analysis from Gemini API: " ++ gem

/-- Verbose message printed when geolocation was found. -/
def mapsMsg (maps : String) : String :=
  "\n* Found location, Maps API URL: " ++ maps

/-- Verbose message printed after the Record-append stage. -/
def addedMsg (cells : Nat) : String :=
  "\n* Added " ++ toString cells ++ " cells to Google Sheet"

/-- Result of one pipeline run: the boolean outcome of `main` (`True` versus
the falsy `None`), the trace of collaborator invocations, and the verbose
console lines. -/
structure MainResult where
  ok : Bool
  events : List Event
  console : List String
deriving DecidableEq, Repr

/-- Source `main`: drive the process from image download through report
generation.  Each `if not X: return` of the source becomes the matching
falsiness test on the modelled value; `time.sleep(2)` is a pure no-op. -/
def main (env : Env) (fname bucket sheet_id folder : String) (top : Nat)
    (debug : Bool) : MainResult :=
  let fetch := drive_get_img env fname
  match fetch.fst with
  | none => ⟨false, fetch.snd, []⟩
  | some sf =>
    let con1 := if debug then [dlMsg sf] else []
    let gcsname := path_join folder sf.fname
    let arch := gcs_blob_upload env gcsname bucket sf.data sf.mtype
    match arch.fst with
    | none => ⟨false, fetch.snd ++ arch.snd, con1⟩
    | some g =>
      let con2 := con1 ++ (if debug then [upMsg g] else [])
      let vis := vision_label_img env sf.data top
      match vis.fst with
      | none => ⟨false, fetch.snd ++ arch.snd ++ vis.snd, con2⟩
      | some viz =>
        if viz = "" then ⟨false, fetch.snd ++ arch.snd ++ vis.snd, con2⟩
        else
          let con3 := con2 ++ (if debug then [vizMsg top viz] else [])
          let gen := genai_analyze_img env sf.data
          let gem := gen.fst
          if gem = "" then
            ⟨false, fetch.snd ++ arch.snd ++ vis.snd ++ gen.snd, con3⟩
          else
            let con4 := con3 ++ (if debug then [gemMsg gem] else [])
            let row := buildRow bucket folder sf viz gem
            let con5 := con4 ++
              (if sf.maps = "" then []
               else if debug then [mapsMsg sf.maps] else [])
            let app := sheet_append_row env sheet_id row
            let evs := fetch.snd ++ arch.snd ++ vis.snd ++ gen.snd ++ app.snd
            match app.fst with
            | none => ⟨false, evs, con5⟩
            | some 0 => ⟨false, evs, con5⟩
            | some (n + 1) =>
              ⟨true, evs, con5 ++ (if debug then [addedMsg (n + 1)] else [])⟩

/-- Whether an event is an Archive-stage (GCS insert) invocation. -/
def Event.isArchive : Event → Bool
  | .gcsInsertCall _ _ => true
  | _ => false

/-- Whether an event is a compensating GCS delete (never emitted). -/
def Event.isGcsDelete : Event → Bool
  | .gcsDeleteCall _ _ => true
  | _ => false

/-- Whether an event is a Classification-stage (Vision) invocation. -/
def Event.isVision : Event → Bool
  | .visionCall _ => true
  | _ => false

/-- Whether an event is a Description-stage (Gemini) invocation. -/
def Event.isGenai : Event → Bool
  | .genaiCall => true
  | _ => false

/-- Whether an event is a Record-append (Sheets) invocation. -/
def Event.isSheet : Event → Bool
  | .sheetAppendCall _ _ => true
  | _ => false

/-- Number of Archive-stage invocations in a trace. -/
def countArchive (evs : List Event) : Nat := evs.countP Event.isArchive

/-- Number of compensating GCS deletes in a trace. -/
def countGcsDelete (evs : List Event) : Nat := evs.countP Event.isGcsDelete

/-- Number of Classification-stage invocations in a trace. -/
def countVision (evs : List Event) : Nat := evs.countP Event.isVision

/-- Number of Description-stage invocations in a trace. -/
def countGenai (evs : List Event) : Nat := evs.countP Event.isGenai

/-- Number of Record-append invocations in a trace. -/
def countSheet (evs : List Event) : Nat := evs.countP Event.isSheet

/-- The row carried by the first Record-append event of a trace, if any. -/
def appendedRow (evs : List Event) : Option (List String) :=
  evs.findSome? fun e =>
    match e with
    | .sheetAppendCall _ row => some row
    | _ => none

/-- Concrete Drive entry used in test environments. -/
def fileA : DriveFile :=
  ⟨"id1", "photo.jpg", "image/jpeg", "2024-01-01T00:00:00Z"⟩

/-- Test environment: every collaborator answers successfully and the image
carries no geolocation metadata (the end-to-end scenario of the spec). -/
def envOk : Env where
  apiKey := "K"
  driveList := fun n => if n = "photo.jpg" then [fileA] else []
  imageMetadata := fun _ => none
  downloadMedia := fun _ => [1, 2, 3]
  gcsInsert := fun _ _ _ _ => some ⟨"my-bucket", "2024/photo.jpg"⟩
  visionLabels := fun _ _ => some [⟨mkRat 97 100, "Dog"⟩]
  genaiText := fun _ => "A dog sits in a park."
  sheetAppend := fun _ _ => some ⟨some 7⟩

/-- Test environment: like `envOk` but the image has location metadata. -/
def envGeo : Env :=
  { envOk with
    imageMetadata := fun _ => some ⟨some ⟨"37.42", "-122.08"⟩⟩
    sheetAppend := fun _ _ => some ⟨some 8⟩ }

/-- Test environment: the file store has no matching file. -/
def envNoFile : Env :=
  { envOk with driveList := fun _ => [] }

/-- Second concrete Drive entry, a duplicate name with a different id. -/
def fileB : DriveFile :=
  ⟨"id2", "photo.jpg", "image/png", "2023-05-05T00:00:00Z"⟩

/-- Test environment: two files match the queried name. -/
def envDup : Env :=
  { envOk with driveList := fun n =>
      if n = "photo.jpg" then [fileA, fileB] else [] }

/-- Test environment: the object store rejects the upload. -/
def envNoGcs : Env :=
  { envOk with gcsInsert := fun _ _ _ _ => none }

/-- Test environment: the label service returns no `labelAnnotations`. -/
def envNoLabels : Env :=
  { envOk with visionLabels := fun _ _ => none }

/-- Test environment: the generative service returns whitespace only. -/
def envBlankGenai : Env :=
  { envOk with genaiText := fun _ => "  \t\n " }

/-- Test environment: the tabular store reports zero written cells. -/
def envZeroCells : Env :=
  { envOk with sheetAppend := fun _ _ => some ⟨some 0⟩ }

/-- The rational cast of a numerator is the rational times its denominator. -/
lemma num_cast_eq (q : ℚ) : (q.num : ℚ) = q * q.den := by
  have hden : (q.den : ℚ) ≠ 0 := Nat.cast_ne_zero.mpr q.den_nz
  exact (div_eq_iff hden).mp (Rat.num_div_den q)

/-- The `mkRat` expression in `fmtLabel` really is the score times 100. -/
lemma mkRat_num_mul_100 (q : ℚ) :
    (mkRat (q.num * 100) q.den : ℚ) = q * 100 := by
  have hden : (q.den : ℚ) ≠ 0 := Nat.cast_ne_zero.mpr q.den_nz
  rw [Rat.mkRat_eq_div]
  push_cast
  field_simp
  rw [num_cast_eq]
  ring

/-- The `mkRat` expression in `k_ize` really is the byte count over 1000. -/
lemma mkRat_nat (n : Nat) : (mkRat n 1000 : ℚ) = (n : ℚ) / 1000 := by
  rw [Rat.mkRat_eq_div]; norm_num

/-- The integer computed inside `format2dec` is the floor of
`q * 100 + 1 / 2`, i.e. the value rounded (half up) to hundredths. -/
lemma fdiv_eq_floor (q : ℚ) :
    Int.fdiv (200 * q.num + (q.den : ℤ)) (2 * (q.den : ℤ))
      = ⌊q * 100 + 1 / 2⌋ := by
  have hden : (0 : ℤ) ≤ 2 * (q.den : ℤ) := by positivity
  have hq : (q.den : ℚ) ≠ 0 := Nat.cast_ne_zero.mpr q.den_nz
  rw [Int.fdiv_eq_ediv _ hden]
  have hx : q * 100 + 1 / 2
      = ((200 * q.num + (q.den : ℤ) : ℤ) : ℚ) / ((2 * q.den : ℕ) : ℚ) := by
    push_cast
    field_simp
    rw [num_cast_eq]
    ring
  rw [hx, Rat.floor_intCast_div_natCast]
  push_cast
  rfl

/-- Events of the Archive stage, definitionally. -/
lemma gcs_snd (env : Env) (fname bucket : String) (media : List Nat)
    (mimetype : String) :
    (gcs_blob_upload env fname bucket media mimetype).snd
      = [Event.gcsInsertCall bucket fname] := rfl

/-- Events of the Classification stage, definitionally. -/
lemma vision_snd (env : Env) (img : List Nat) (top : Nat) :
    (vision_label_img env img top).snd = [Event.visionCall top] := rfl

/-- Events of the Description stage, definitionally. -/
lemma genai_snd (env : Env) (media : List Nat) :
    (genai_analyze_img env media).snd = [Event.genaiCall] := rfl

/-- The Description stage's value, definitionally. -/
lemma genai_fst (env : Env) (media : List Nat) :
    (genai_analyze_img env media).fst = pyStrip (env.genaiText media) := rfl

/-- Events of the Record-append stage, definitionally. -/
lemma sheet_snd (env : Env) (sheet : String) (row : List String) :
    (sheet_append_row env sheet row).snd
      = [Event.sheetAppendCall sheet row] := rfl

/-- The Fetch stage emits only Drive events: no Archive invocation. -/
lemma countP_isArchive_drive (env : Env) (fname : String) :
    (drive_get_img env fname).snd.countP Event.isArchive = 0 := by
  unfold drive_get_img drive_geoloc_maps
  cases env.driveList fname <;> simp [Event.isArchive]

/-- The Fetch stage emits only Drive events: no Vision invocation. -/
lemma countP_isVision_drive (env : Env) (fname : String) :
    (drive_get_img env fname).snd.countP Event.isVision = 0 := by
  unfold drive_get_img drive_geoloc_maps
  cases env.driveList fname <;> simp [Event.isVision]

/-- The Fetch stage emits only Drive events: no Gemini invocation. -/
lemma countP_isGenai_drive (env : Env) (fname : String) :
    (drive_get_img env fname).snd.countP Event.isGenai = 0 := by
  unfold drive_get_img drive_geoloc_maps
  cases env.driveList fname <;> simp [Event.isGenai]

/-- The Fetch stage emits only Drive events: no Sheets invocation. -/
lemma countP_isSheet_drive (env : Env) (fname : String) :
    (drive_get_img env fname).snd.countP Event.isSheet = 0 := by
  unfold drive_get_img drive_geoloc_maps
  cases env.driveList fname <;> simp [Event.isSheet]

/-- The Fetch stage emits only Drive events: no GCS delete. -/
lemma countP_isGcsDelete_drive (env : Env) (fname : String) :
    (drive_get_img env fname).snd.countP Event.isGcsDelete = 0 := by
  unfold drive_get_img drive_geoloc_maps
  cases env.driveList fname <;> simp [Event.isGcsDelete]

/-- Fetch events carry no appended row. -/
lemma appendedRow_drive (env : Env) (fname : String) (l : List Event) :
    appendedRow ((drive_get_img env fname).snd ++ l) = appendedRow l := by
  unfold drive_get_img drive_geoloc_maps appendedRow
  cases env.driveList fname <;> simp [List.findSome?]


lemma main_fetch_none (env : Env) (fname bucket sheet_id folder : String)
    (top : Nat) (debug : Bool)
    (hf : (drive_get_img env fname).fst = none) :
    (main env fname bucket sheet_id folder top debug).ok = false
    ∧ (main env fname bucket sheet_id folder top debug).events
        = (drive_get_img env fname).snd := by
  constructor <;> simp [main, hf]

lemma main_arch_none (env : Env) (fname bucket sheet_id folder : String)
    (top : Nat) (debug : Bool) (sf : SourceFile)
    (hf : (drive_get_img env fname).fst = some sf)
    (ha : (gcs_blob_upload env (path_join folder sf.fname) bucket sf.data
        sf.mtype).fst = none) :
    (main env fname bucket sheet_id folder top debug).ok = false
    ∧ (main env fname bucket sheet_id folder top debug).events
        = (drive_get_img env fname).snd
          ++ [Event.gcsInsertCall bucket (path_join folder sf.fname)] := by
  constructor <;> simp [main, hf, ha, gcs_snd]

lemma main_vision_fail (env : Env) (fname bucket sheet_id folder : String)
    (top : Nat) (debug : Bool) (sf : SourceFile) (g : GcsRsp)
    (hf : (drive_get_img env fname).fst = some sf)
    (ha : (gcs_blob_upload env (path_join folder sf.fname) bucket sf.data
        sf.mtype).fst = some g)
    (hv : (vision_label_img env sf.data top).fst = none
        ∨ (vision_label_img env sf.data top).fst = some "") :
    (main env fname bucket sheet_id folder top debug).ok = false
    ∧ (main env fname bucket sheet_id folder top debug).events
        = (drive_get_img env fname).snd
          ++ [Event.gcsInsertCall bucket (path_join folder sf.fname),
              Event.visionCall top] := by
  rcases hv with hv | hv <;> constructor <;>
    simp [main, hf, ha, hv, gcs_snd, vision_snd]

lemma main_genai_fail (env : Env) (fname bucket sheet_id folder : String)
    (top : Nat) (debug : Bool) (sf : SourceFile) (g : GcsRsp) (viz : String)
    (hf : (drive_get_img env fname).fst = some sf)
    (ha : (gcs_blob_upload env (path_join folder sf.fname) bucket sf.data
        sf.mtype).fst = some g)
    (hv : (vision_label_img env sf.data top).fst = some viz)
    (hviz : viz ≠ "")
    (hg : pyStrip (env.genaiText sf.data) = "") :
    (main env fname bucket sheet_id folder top debug).ok = false
    ∧ (main env fname bucket sheet_id folder top debug).events
        = (drive_get_img env fname).snd
          ++ [Event.gcsInsertCall bucket (path_join folder sf.fname),
              Event.visionCall top, Event.genaiCall] := by
  constructor <;>
    simp [main, hf, ha, hv, hviz, hg, gcs_snd, vision_snd, genai_snd,
      genai_fst]

lemma main_sheet_fail (env : Env) (fname bucket sheet_id folder : String)
    (top : Nat) (debug : Bool) (sf : SourceFile) (g : GcsRsp) (viz : String)
    (hf : (drive_get_img env fname).fst = some sf)
    (ha : (gcs_blob_upload env (path_join folder sf.fname) bucket sf.data
        sf.mtype).fst = some g)
    (hv : (vision_label_img env sf.data top).fst = some viz)
    (hviz : viz ≠ "")
    (hgem : pyStrip (env.genaiText sf.data) ≠ "")
    (hs : (sheet_append_row env sheet_id (buildRow bucket folder sf viz
          (pyStrip (env.genaiText sf.data)))).fst = none
        ∨ (sheet_append_row env sheet_id (buildRow bucket folder sf viz
          (pyStrip (env.genaiText sf.data)))).fst = some 0) :
    (main env fname bucket sheet_id folder top debug).ok = false
    ∧ (main env fname bucket sheet_id folder top debug).events
        = (drive_get_img env fname).snd
          ++ [Event.gcsInsertCall bucket (path_join folder sf.fname),
              Event.visionCall top, Event.genaiCall,
              Event.sheetAppendCall sheet_id (buildRow bucket folder sf viz
                (pyStrip (env.genaiText sf.data)))] := by
  rcases hs with hs | hs <;> constructor <;>
    simp [main, hf, ha, hv, hviz, hgem, hs, gcs_snd, vision_snd, genai_snd,
      genai_fst, sheet_snd]

lemma main_success (env : Env) (fname bucket sheet_id folder : String)
    (top : Nat) (debug : Bool) (sf : SourceFile) (g : GcsRsp) (viz : String)
    (n : Nat)
    (hf : (drive_get_img env fname).fst = some sf)
    (ha : (gcs_blob_upload env (path_join folder sf.fname) bucket sf.data
        sf.mtype).fst = some g)
    (hv : (vision_label_img env sf.data top).fst = some viz)
    (hviz : viz ≠ "")
    (hgem : pyStrip (env.genaiText sf.data) ≠ "")
    (hs : (sheet_append_row env sheet_id (buildRow bucket folder sf viz
          (pyStrip (env.genaiText sf.data)))).fst = some (n + 1)) :
    (main env fname bucket sheet_id folder top debug).ok = true
    ∧ (main env fname bucket sheet_id folder top debug).events
        = (drive_get_img env fname).snd
          ++ [Event.gcsInsertCall bucket (path_join folder sf.fname),
              Event.visionCall top, Event.genaiCall,
              Event.sheetAppendCall sheet_id (buildRow bucket folder sf viz
                (pyStrip (env.genaiText sf.data)))] := by
  constructor <;>
    simp [main, hf, ha, hv, hviz, hgem, hs, gcs_snd, vision_snd, genai_snd,
      genai_fst, sheet_snd]


/-- C3: Fetch not-found contract: zero matches give an absent result and the
orchestrator aborts without invoking Archive; a non-empty match list yields a
`SourceFile` built from the first entry's name, media type, modified time,
downloaded bytes, and geolocation result. -/
theorem fetch_not_found_first_match :
    (∀ (env : Env) (fname : String), env.driveList fname = [] →
       (drive_get_img env fname).fst = none)
    ∧ (∀ (env : Env) (fname bucket sheet_id folder : String) (top : Nat)
        (debug : Bool), env.driveList fname = [] →
        (main env fname bucket sheet_id folder top debug).ok = false
        ∧ countArchive
            (main env fname bucket sheet_id folder top debug).events = 0)
    ∧ (∀ (env : Env) (fname : String) (f : DriveFile) (fs : List DriveFile),
        env.driveList fname = f :: fs →
        (drive_get_img env fname).fst
          = some ⟨f.name, f.mimeType, f.modifiedTime, env.downloadMedia f.id,
              geoloc_url env f.id⟩) := by
  refine ⟨fun env fname h => ?_, fun env fname bucket sheet_id folder top debug h => ?_,
    fun env fname f fs h => ?_⟩
  · simp [drive_get_img, h]
  · have hf : (drive_get_img env fname).fst = none := by
      simp [drive_get_img, h]
    obtain ⟨hok, hev⟩ :=
      main_fetch_none env fname bucket sheet_id folder top debug hf
    refine ⟨hok, ?_⟩
    rw [hev]
    exact countP_isArchive_drive env fname
  · simp [drive_get_img, drive_geoloc_maps, h]

/-- C3 witness: on an empty store the fetch is absent, the run fails and
Archive is never called; with two matches the first is selected. -/
theorem fetch_not_found_first_match_witness :
    (drive_get_img envNoFile "photo.jpg").fst = none
    ∧ (main envNoFile "photo.jpg" "my-bucket" "SHEET" "2024" 5 false).ok
        = false
    ∧ countArchive
        (main envNoFile "photo.jpg" "my-bucket" "SHEET" "2024" 5 false).events
        = 0
    ∧ (drive_get_img envDup "photo.jpg").fst
        = some ⟨"photo.jpg", "image/jpeg", "2024-01-01T00:00:00Z", [1, 2, 3],
            ""⟩ := by
  obtain ⟨c1, c2, c3⟩ := fetch_not_found_first_match
  obtain ⟨hok, hcnt⟩ :=
    c2 envNoFile "photo.jpg" "my-bucket" "SHEET" "2024" 5 false rfl
  refine ⟨c1 envNoFile "photo.jpg" rfl, hok, hcnt, ?_⟩
  have h := c3 envDup "photo.jpg" fileA [fileB] (by decide)
  rw [h]
  decide

/-- C4: Geolocation resolver: absent metadata or a missing location field
gives the empty URL; a present location gives the Maps Static API URL with
the exact latitude and longitude interpolated, unmodified. -/
theorem geoloc_resolver_url :
    ∀ (env : Env) (fid : String),
      (env.imageMetadata fid = none → (drive_geoloc_maps env fid).fst = "")
      ∧ (∀ imd, env.imageMetadata fid = some imd → imd.location = none →
          (drive_geoloc_maps env fid).fst = "")
      ∧ (∀ imd loc, env.imageMetadata fid = some imd →
          imd.location = some loc →
          (drive_geoloc_maps env fid).fst
            = "maps.googleapis.com/maps/api/staticmap?size=480x480&markers="
              ++ loc.latitude ++ "," ++ loc.longitude ++ "&key="
              ++ env.apiKey) := by
  intro env fid
  refine ⟨fun h => ?_, fun imd h1 h2 => ?_, fun imd loc h1 h2 => ?_⟩
  · simp [drive_geoloc_maps, geoloc_url, h]
  · simp [drive_geoloc_maps, geoloc_url, h1, h2]
  · simp [drive_geoloc_maps, geoloc_url, MAPS_API_URL, h1, h2]

/-- C4 witness: no metadata gives the empty URL; a located image gives the
full Maps URL with its coordinates. -/
theorem geoloc_resolver_url_witness :
    (drive_geoloc_maps envOk "id1").fst = ""
    ∧ (drive_geoloc_maps envGeo "id1").fst
        = "maps.googleapis.com/maps/api/staticmap?size=480x480&markers=37.42,-122.08&key=K" := by
  constructor
  · exact (geoloc_resolver_url envOk "id1").1 rfl
  · have h := (geoloc_resolver_url envGeo "id1").2.2
      ⟨some ⟨"37.42", "-122.08"⟩⟩ ⟨"37.42", "-122.08"⟩ rfl rfl
    rw [h]
    decide

/-- C5: Classification formatting: a response without label annotations
yields an absent result; otherwise each label is rendered as
`(<confidence*100 to 2 decimals>%) <description>` and the entries are joined
with a comma and space in service order, with no re-sorting. -/
theorem classification_formatting :
    ∀ (env : Env) (img : List Nat) (top : Nat),
      (env.visionLabels img top = none →
        (vision_label_img env img top).fst = none)
      ∧ (∀ labels, env.visionLabels img top = some labels →
          (vision_label_img env img top).fst
            = some (String.intercalate ", " (labels.map (fun label =>
                "(" ++ format2dec (label.score * 100) ++ "%) "
                  ++ label.description)))) := by
  intro env img top
  constructor
  · intro h
    simp [vision_label_img, h]
  · intro labels h
    simp only [vision_label_img, h]
    congr 1
    congr 1
    apply List.map_congr_left
    intro l _
    unfold fmtLabel
    rw [mkRat_num_mul_100]

/-- C5 witness: a single 0.97-confidence label renders as
`(97.00%) Dog`; an absent annotation list yields an absent result. -/
theorem classification_formatting_witness :
    (vision_label_img envOk [1, 2, 3] 5).fst = some "(97.00%) Dog"
    ∧ (vision_label_img envNoLabels [1, 2, 3] 5).fst = none := by
  constructor
  · have h := (classification_formatting envOk [1, 2, 3] 5).2
      [⟨mkRat 97 100, "Dog"⟩] rfl
    rw [h]
    have e : ((⟨mkRat 97 100, "Dog"⟩ : VisionLabel).score : ℚ) * 100
        = mkRat ((mkRat 97 100 : ℚ).num * 100) (mkRat 97 100 : ℚ).den :=
      (mkRat_num_mul_100 _).symm
    simp only [List.map_cons, List.map_nil]
    rw [e]
    decide
  · exact (classification_formatting envNoLabels [1, 2, 3] 5).1 rfl

/-- C6: Byte-size formatter: the result is the byte count divided by 1000,
rounded to two decimal places (rendered as integer part, a point, and
exactly two digits), right-justified to the minimum width of the
`%6.2f` conversion and suffixed with `K`; in particular
`k_ize 0 = "  0.00K"` and `k_ize 1000000 = "1000.00K"`.  As a Lean
function it is pure and total by construction. -/
theorem byte_size_formatter :
    (∀ n : Nat,
       k_ize n
         = padLeft 6 (toString ((⌊(n : ℚ) / 1000 * 100 + 1 / 2⌋).toNat / 100)
             ++ "." ++ pad2 ((⌊(n : ℚ) / 1000 * 100 + 1 / 2⌋).toNat % 100))
           ++ "K")
    ∧ (∀ n : Nat, 7 ≤ (k_ize n).length)
    ∧ (∀ k : Nat, k < 100 →
        (pad2 k).length = 2 ∧ (pad2 k).data.all Char.isDigit = true)
    ∧ k_ize 0 = "  0.00K"
    ∧ k_ize 1000000 = "1000.00K" := by
  refine ⟨fun n => ?_, fun n => ?_, ?_, by decide, by decide⟩
  · have h0 : (0 : ℤ) ≤ ⌊(n : ℚ) / 1000 * 100 + 1 / 2⌋ :=
      Int.floor_nonneg.mpr (by positivity)
    have habs : (⌊(n : ℚ) / 1000 * 100 + 1 / 2⌋).natAbs
        = (⌊(n : ℚ) / 1000 * 100 + 1 / 2⌋).toNat := by omega
    simp only [k_ize, format2dec]
    rw [fdiv_eq_floor, mkRat_nat, if_neg (not_lt.mpr h0), habs]
  · have hk : ("K" : String).length = 1 := rfl
    simp only [k_ize, padLeft, String.length_append, String.length_mk,
      List.length_replicate, hk]
    omega
  · decide

/-- C6 witness: the two-decimal digit block at a concrete fraction index. -/
theorem byte_size_formatter_witness :
    (5 : Nat) < 100 ∧ (pad2 5).length = 2
    ∧ (pad2 5).data.all Char.isDigit = true := by
  have h := byte_size_formatter.2.2.1 5 (by decide)
  exact ⟨by decide, h.1, h.2⟩

/-- C9: Verbose-mode noninterference: for every environment and input the
runs with the verbose flag true and false return the same outcome and the
same collaborator event trace (hence the same appended row); the flag only
changes console output. -/
theorem verbose_noninterference :
    ∀ (env : Env) (fname bucket sheet_id folder : String) (top : Nat),
      (main env fname bucket sheet_id folder top true).ok
        = (main env fname bucket sheet_id folder top false).ok
      ∧ (main env fname bucket sheet_id folder top true).events
        = (main env fname bucket sheet_id folder top false).events := by
  intro env fname bucket sheet_id folder top
  rcases hf : (drive_get_img env fname).fst with _ | sf
  · have h1 := main_fetch_none env fname bucket sheet_id folder top true hf
    have h0 := main_fetch_none env fname bucket sheet_id folder top false hf
    exact ⟨h1.1.trans h0.1.symm, h1.2.trans h0.2.symm⟩
  · rcases ha : (gcs_blob_upload env (path_join folder sf.fname) bucket
        sf.data sf.mtype).fst with _ | g
    · have h1 := main_arch_none env fname bucket sheet_id folder top true
        sf hf ha
      have h0 := main_arch_none env fname bucket sheet_id folder top false
        sf hf ha
      exact ⟨h1.1.trans h0.1.symm, h1.2.trans h0.2.symm⟩
    · rcases hv : (vision_label_img env sf.data top).fst with _ | viz
      · have h1 := main_vision_fail env fname bucket sheet_id folder top true
          sf g hf ha (Or.inl hv)
        have h0 := main_vision_fail env fname bucket sheet_id folder top
          false sf g hf ha (Or.inl hv)
        exact ⟨h1.1.trans h0.1.symm, h1.2.trans h0.2.symm⟩
      · by_cases hviz : viz = ""
        · subst hviz
          have h1 := main_vision_fail env fname bucket sheet_id folder top
            true sf g hf ha (Or.inr hv)
          have h0 := main_vision_fail env fname bucket sheet_id folder top
            false sf g hf ha (Or.inr hv)
          exact ⟨h1.1.trans h0.1.symm, h1.2.trans h0.2.symm⟩
        · by_cases hg : pyStrip (env.genaiText sf.data) = ""
          · have h1 := main_genai_fail env fname bucket sheet_id folder top
              true sf g viz hf ha hv hviz hg
            have h0 := main_genai_fail env fname bucket sheet_id folder top
              false sf g viz hf ha hv hviz hg
            exact ⟨h1.1.trans h0.1.symm, h1.2.trans h0.2.symm⟩
          · rcases hs : (sheet_append_row env sheet_id (buildRow bucket
                folder sf viz (pyStrip (env.genaiText sf.data)))).fst
                with _ | m
            · have h1 := main_sheet_fail env fname bucket sheet_id folder
                top true sf g viz hf ha hv hviz hg (Or.inl hs)
              have h0 := main_sheet_fail env fname bucket sheet_id folder
                top false sf g viz hf ha hv hviz hg (Or.inl hs)
              exact ⟨h1.1.trans h0.1.symm, h1.2.trans h0.2.symm⟩
            · match m, hs with
              | 0, hs =>
                have h1 := main_sheet_fail env fname bucket sheet_id folder
                  top true sf g viz hf ha hv hviz hg (Or.inr hs)
                have h0 := main_sheet_fail env fname bucket sheet_id folder
                  top false sf g viz hf ha hv hviz hg (Or.inr hs)
                exact ⟨h1.1.trans h0.1.symm, h1.2.trans h0.2.symm⟩
              | n + 1, hs =>
                have h1 := main_success env fname bucket sheet_id folder
                  top true sf g viz n hf ha hv hviz hg hs
                have h0 := main_success env fname bucket sheet_id folder
                  top false sf g viz n hf ha hv hviz hg hs
                exact ⟨h1.1.trans h0.1.symm, h1.2.trans h0.2.symm⟩


/-- C1: Orchestrator fail-fast: whichever stage first returns an
absent/failure result, the run reports failure and no later collaborator is
invoked; each stage that is reached after a populated result is invoked
exactly once, in the fixed order Fetch, Archive, Classify, Describe,
Record. -/
theorem fail_fast_orchestration :
    ∀ (env : Env) (fname bucket sheet_id folder : String) (top : Nat)
      (debug : Bool),
      ((drive_get_img env fname).fst = none →
        (main env fname bucket sheet_id folder top debug).ok = false
        ∧ countArchive
            (main env fname bucket sheet_id folder top debug).events = 0
        ∧ countVision
            (main env fname bucket sheet_id folder top debug).events = 0
        ∧ countGenai
            (main env fname bucket sheet_id folder top debug).events = 0
        ∧ countSheet
            (main env fname bucket sheet_id folder top debug).events = 0)
      ∧ (∀ sf, (drive_get_img env fname).fst = some sf →
          (gcs_blob_upload env (path_join folder sf.fname) bucket sf.data
            sf.mtype).fst = none →
          (main env fname bucket sheet_id folder top debug).ok = false
          ∧ countArchive
              (main env fname bucket sheet_id folder top debug).events = 1
          ∧ countVision
              (main env fname bucket sheet_id folder top debug).events = 0
          ∧ countGenai
              (main env fname bucket sheet_id folder top debug).events = 0
          ∧ countSheet
              (main env fname bucket sheet_id folder top debug).events = 0)
      ∧ (∀ sf g, (drive_get_img env fname).fst = some sf →
          (gcs_blob_upload env (path_join folder sf.fname) bucket sf.data
            sf.mtype).fst = some g →
          ((vision_label_img env sf.data top).fst = none
            ∨ (vision_label_img env sf.data top).fst = some "") →
          (main env fname bucket sheet_id folder top debug).ok = false
          ∧ countArchive
              (main env fname bucket sheet_id folder top debug).events = 1
          ∧ countVision
              (main env fname bucket sheet_id folder top debug).events = 1
          ∧ countGenai
              (main env fname bucket sheet_id folder top debug).events = 0
          ∧ countSheet
              (main env fname bucket sheet_id folder top debug).events = 0)
      ∧ (∀ sf g viz, (drive_get_img env fname).fst = some sf →
          (gcs_blob_upload env (path_join folder sf.fname) bucket sf.data
            sf.mtype).fst = some g →
          (vision_label_img env sf.data top).fst = some viz → viz ≠ "" →
          pyStrip (env.genaiText sf.data) = "" →
          (main env fname bucket sheet_id folder top debug).ok = false
          ∧ countArchive
              (main env fname bucket sheet_id folder top debug).events = 1
          ∧ countVision
              (main env fname bucket sheet_id folder top debug).events = 1
          ∧ countGenai
              (main env fname bucket sheet_id folder top debug).events = 1
          ∧ countSheet
              (main env fname bucket sheet_id folder top debug).events = 0)
      ∧ (∀ sf g viz, (drive_get_img env fname).fst = some sf →
          (gcs_blob_upload env (path_join folder sf.fname) bucket sf.data
            sf.mtype).fst = some g →
          (vision_label_img env sf.data top).fst = some viz → viz ≠ "" →
          pyStrip (env.genaiText sf.data) ≠ "" →
          ((sheet_append_row env sheet_id (buildRow bucket folder sf viz
              (pyStrip (env.genaiText sf.data)))).fst = none
            ∨ (sheet_append_row env sheet_id (buildRow bucket folder sf viz
              (pyStrip (env.genaiText sf.data)))).fst = some 0) →
          (main env fname bucket sheet_id folder top debug).ok = false
          ∧ countArchive
              (main env fname bucket sheet_id folder top debug).events = 1
          ∧ countVision
              (main env fname bucket sheet_id folder top debug).events = 1
          ∧ countGenai
              (main env fname bucket sheet_id folder top debug).events = 1
          ∧ countSheet
              (main env fname bucket sheet_id folder top debug).events = 1)
      ∧ (∀ sf g viz n, (drive_get_img env fname).fst = some sf →
          (gcs_blob_upload env (path_join folder sf.fname) bucket sf.data
            sf.mtype).fst = some g →
          (vision_label_img env sf.data top).fst = some viz → viz ≠ "" →
          pyStrip (env.genaiText sf.data) ≠ "" →
          (sheet_append_row env sheet_id (buildRow bucket folder sf viz
            (pyStrip (env.genaiText sf.data)))).fst = some (n + 1) →
          (main env fname bucket sheet_id folder top debug).ok = true
          ∧ countArchive
              (main env fname bucket sheet_id folder top debug).events = 1
          ∧ countVision
              (main env fname bucket sheet_id folder top debug).events = 1
          ∧ countGenai
              (main env fname bucket sheet_id folder top debug).events = 1
          ∧ countSheet
              (main env fname bucket sheet_id folder top debug).events = 1) := by
  intro env fname bucket sheet_id folder top debug
  refine ⟨fun hf => ?_, fun sf hf ha => ?_, fun sf g hf ha hv => ?_,
    fun sf g viz hf ha hv hviz hg => ?_,
    fun sf g viz hf ha hv hviz hg hs => ?_,
    fun sf g viz n hf ha hv hviz hg hs => ?_⟩
  · obtain ⟨hok, hev⟩ :=
      main_fetch_none env fname bucket sheet_id folder top debug hf
    refine ⟨hok, ?_, ?_, ?_, ?_⟩ <;> rw [hev] <;>
      simp [countArchive, countVision, countGenai, countSheet,
        countP_isArchive_drive, countP_isVision_drive, countP_isGenai_drive,
        countP_isSheet_drive]
  · obtain ⟨hok, hev⟩ :=
      main_arch_none env fname bucket sheet_id folder top debug sf hf ha
    refine ⟨hok, ?_, ?_, ?_, ?_⟩ <;> rw [hev] <;>
      simp [countArchive, countVision, countGenai, countSheet,
        List.countP_append, countP_isArchive_drive, countP_isVision_drive,
        countP_isGenai_drive, countP_isSheet_drive, Event.isArchive,
        Event.isVision, Event.isGenai, Event.isSheet]
  · obtain ⟨hok, hev⟩ :=
      main_vision_fail env fname bucket sheet_id folder top debug sf g hf
        ha hv
    refine ⟨hok, ?_, ?_, ?_, ?_⟩ <;> rw [hev] <;>
      simp [countArchive, countVision, countGenai, countSheet,
        List.countP_append, countP_isArchive_drive, countP_isVision_drive,
        countP_isGenai_drive, countP_isSheet_drive, Event.isArchive,
        Event.isVision, Event.isGenai, Event.isSheet]
  · obtain ⟨hok, hev⟩ :=
      main_genai_fail env fname bucket sheet_id folder top debug sf g viz hf
        ha hv hviz hg
    refine ⟨hok, ?_, ?_, ?_, ?_⟩ <;> rw [hev] <;>
      simp [countArchive, countVision, countGenai, countSheet,
        List.countP_append, countP_isArchive_drive, countP_isVision_drive,
        countP_isGenai_drive, countP_isSheet_drive, Event.isArchive,
        Event.isVision, Event.isGenai, Event.isSheet]
  · obtain ⟨hok, hev⟩ :=
      main_sheet_fail env fname bucket sheet_id folder top debug sf g viz hf
        ha hv hviz hg hs
    refine ⟨hok, ?_, ?_, ?_, ?_⟩ <;> rw [hev] <;>
      simp [countArchive, countVision, countGenai, countSheet,
        List.countP_append, countP_isArchive_drive, countP_isVision_drive,
        countP_isGenai_drive, countP_isSheet_drive, Event.isArchive,
        Event.isVision, Event.isGenai, Event.isSheet]
  · obtain ⟨hok, hev⟩ :=
      main_success env fname bucket sheet_id folder top debug sf g viz n hf
        ha hv hviz hg hs
    refine ⟨hok, ?_, ?_, ?_, ?_⟩ <;> rw [hev] <;>
      simp [countArchive, countVision, countGenai, countSheet,
        List.countP_append, countP_isArchive_drive, countP_isVision_drive,
        countP_isGenai_drive, countP_isSheet_drive, Event.isArchive,
        Event.isVision, Event.isGenai, Event.isSheet]

/-- C1 witness: a missing file fails the run without invoking any later
collaborator; a fully successful run invokes each stage once and
succeeds. -/
theorem fail_fast_orchestration_witness :
    ((main envNoFile "photo.jpg" "my-bucket" "SHEET" "2024" 5 false).ok
        = false
      ∧ countArchive
          (main envNoFile "photo.jpg" "my-bucket" "SHEET" "2024" 5
            false).events = 0
      ∧ countSheet
          (main envNoFile "photo.jpg" "my-bucket" "SHEET" "2024" 5
            false).events = 0)
    ∧ ((main envOk "photo.jpg" "my-bucket" "SHEET" "2024" 5 false).ok = true
      ∧ countArchive
          (main envOk "photo.jpg" "my-bucket" "SHEET" "2024" 5
            false).events = 1
      ∧ countSheet
          (main envOk "photo.jpg" "my-bucket" "SHEET" "2024" 5
            false).events = 1) := by
  constructor
  · obtain ⟨hok, h1, _, _, h4⟩ :=
      (fail_fast_orchestration envNoFile "photo.jpg" "my-bucket" "SHEET"
        "2024" 5 false).1 rfl
    exact ⟨hok, h1, h4⟩
  · obtain ⟨hok, h1, _, _, h4⟩ :=
      (fail_fast_orchestration envOk "photo.jpg" "my-bucket" "SHEET" "2024"
        5 false).2.2.2.2.2
        ⟨"photo.jpg", "image/jpeg", "2024-01-01T00:00:00Z", [1, 2, 3], ""⟩
        ⟨"my-bucket", "2024/photo.jpg"⟩ "(97.00%) Dog" 6 (by decide)
        (by decide) (by decide) (by decide) (by decide) (by decide)
    exact ⟨hok, h1, h4⟩

/-- C2: Summary-row shape: every successful run appends a row whose first
seven cells are folder, hyperlink file reference, media type, timestamp,
formatted size, classification, description, in that order, with a trailing
map-reference cell (always last, one extra cell) exactly when the Fetch
stage's geolocation result is non-empty. -/
theorem summary_row_shape :
    ∀ (env : Env) (fname bucket sheet_id folder : String) (top : Nat)
      (debug : Bool),
      (main env fname bucket sheet_id folder top debug).ok = true →
      ∃ sf viz gem,
        (drive_get_img env fname).fst = some sf
        ∧ (vision_label_img env sf.data top).fst = some viz
        ∧ (genai_analyze_img env sf.data).fst = gem
        ∧ appendedRow
            (main env fname bucket sheet_id folder top debug).events
            = some (buildRow bucket folder sf viz gem)
        ∧ buildRow bucket folder sf viz gem
            = [folder, hyperCell bucket (path_join folder sf.fname) sf.fname,
                sf.mtype, sf.ftime, k_ize sf.data.length, viz, gem]
              ++ (if sf.maps = "" then [] else [mapsCell sf.maps])
        ∧ (sf.maps = "" → (buildRow bucket folder sf viz gem).length = 7)
        ∧ (sf.maps ≠ "" → (buildRow bucket folder sf viz gem).length = 8
            ∧ (buildRow bucket folder sf viz gem).getLast?
                = some (mapsCell sf.maps)) := by
  intro env fname bucket sheet_id folder top debug hok
  rcases hf : (drive_get_img env fname).fst with _ | sf
  · rw [(main_fetch_none env fname bucket sheet_id folder top debug hf).1]
      at hok
    simp at hok
  · rcases ha : (gcs_blob_upload env (path_join folder sf.fname) bucket
        sf.data sf.mtype).fst with _ | g
    · rw [(main_arch_none env fname bucket sheet_id folder top debug sf hf
        ha).1] at hok
      simp at hok
    · rcases hv : (vision_label_img env sf.data top).fst with _ | viz
      · rw [(main_vision_fail env fname bucket sheet_id folder top debug sf
          g hf ha (Or.inl hv)).1] at hok
        simp at hok
      · by_cases hviz : viz = ""
        · subst hviz
          rw [(main_vision_fail env fname bucket sheet_id folder top debug
            sf g hf ha (Or.inr hv)).1] at hok
          simp at hok
        · by_cases hg : pyStrip (env.genaiText sf.data) = ""
          · rw [(main_genai_fail env fname bucket sheet_id folder top debug
              sf g viz hf ha hv hviz hg).1] at hok
            simp at hok
          · rcases hs : (sheet_append_row env sheet_id (buildRow bucket
                folder sf viz (pyStrip (env.genaiText sf.data)))).fst
                with _ | m
            · rw [(main_sheet_fail env fname bucket sheet_id folder top
                debug sf g viz hf ha hv hviz hg (Or.inl hs)).1] at hok
              simp at hok
            · match m, hs with
              | 0, hs =>
                rw [(main_sheet_fail env fname bucket sheet_id folder top
                  debug sf g viz hf ha hv hviz hg (Or.inr hs)).1] at hok
                simp at hok
              | n + 1, hs =>
                obtain ⟨-, hev⟩ := main_success env fname bucket sheet_id
                  folder top debug sf g viz n hf ha hv hviz hg hs
                refine ⟨sf, viz, pyStrip (env.genaiText sf.data), rfl, hv,
                  genai_fst env sf.data, ?_, ?_, ?_, ?_⟩
                · rw [hev, appendedRow_drive]
                  simp [appendedRow, List.findSome?]
                · unfold buildRow
                  by_cases hm : sf.maps = "" <;> simp [hm]
                · intro hm
                  simp [buildRow, hm]
                · intro hm
                  refine ⟨?_, ?_⟩
                  · simp [buildRow, hm]
                  · simp [buildRow, hm, List.getLast?_concat]

/-- C2 witness: a geolocated successful run appends the eight-cell row whose
last cell is the map hyperlink. -/
theorem summary_row_shape_witness :
    (main envGeo "photo.jpg" "my-bucket" "SHEET" "2024" 5 false).ok = true
    ∧ appendedRow
        (main envGeo "photo.jpg" "my-bucket" "SHEET" "2024" 5 false).events
        = some ["2024",
            "=HYPERLINK(\"storage.cloud.google.com/my-bucket/2024/photo.jpg\", \"photo.jpg\")",
            "image/jpeg", "2024-01-01T00:00:00Z", "  0.00K", "(97.00%) Dog",
            "A dog sits in a park.",
            "=HYPERLINK(\"maps.googleapis.com/maps/api/staticmap?size=480x480&markers=37.42,-122.08&key=K\", \"Photo location\")"] := by
  have hok : (main envGeo "photo.jpg" "my-bucket" "SHEET" "2024" 5
      false).ok = true := by decide
  obtain ⟨sf, viz, gem, h1, h2, h3, h4, -, -, -⟩ :=
    summary_row_shape envGeo "photo.jpg" "my-bucket" "SHEET" "2024" 5 false
      hok
  have hsf : sf = ⟨"photo.jpg", "image/jpeg", "2024-01-01T00:00:00Z",
      [1, 2, 3],
      "maps.googleapis.com/maps/api/staticmap?size=480x480&markers=37.42,-122.08&key=K"⟩ :=
    Option.some.inj (h1.symm.trans (by decide))
  subst hsf
  have hviz : viz = "(97.00%) Dog" := Option.some.inj (h2.symm.trans (by decide))
  subst hviz
  have hgem : gem = "A dog sits in a park." := h3.symm.trans (by decide)
  subst hgem
  refine ⟨hok, ?_⟩
  rw [h4]
  decide

/-- C7: Record-append failure condition: the stage returns exactly the cell
count the store reports; once a row has been submitted, the run succeeds if
and only if that count is positive (absent or zero means failure). -/
theorem record_append_failure :
    (∀ (env : Env) (sheet : String) (row : List String),
       (env.sheetAppend sheet row = none →
         (sheet_append_row env sheet row).fst = none)
       ∧ (∀ rsp, env.sheetAppend sheet row = some rsp →
           (sheet_append_row env sheet row).fst = rsp.updatedCells))
    ∧ (∀ (env : Env) (fname bucket sheet_id folder : String) (top : Nat)
        (debug : Bool) (row : List String),
        appendedRow (main env fname bucket sheet_id folder top debug).events
          = some row →
        ((main env fname bucket sheet_id folder top debug).ok = true
          ↔ ∃ n, (sheet_append_row env sheet_id row).fst = some (n + 1))) := by
  constructor
  · intro env sheet row
    constructor
    · intro h
      simp [sheet_append_row, h]
    · intro rsp h
      simp [sheet_append_row, h]
  · intro env fname bucket sheet_id folder top debug row hrow
    rcases hf : (drive_get_img env fname).fst with _ | sf
    · obtain ⟨-, hev⟩ :=
        main_fetch_none env fname bucket sheet_id folder top debug hf
      rw [hev, show (drive_get_img env fname).snd
          = (drive_get_img env fname).snd ++ [] by simp,
        appendedRow_drive] at hrow
      simp [appendedRow] at hrow
    · rcases ha : (gcs_blob_upload env (path_join folder sf.fname) bucket
          sf.data sf.mtype).fst with _ | g
      · obtain ⟨-, hev⟩ := main_arch_none env fname bucket sheet_id folder
          top debug sf hf ha
        rw [hev, appendedRow_drive] at hrow
        simp [appendedRow, List.findSome?] at hrow
      · rcases hv : (vision_label_img env sf.data top).fst with _ | viz
        · obtain ⟨-, hev⟩ := main_vision_fail env fname bucket sheet_id
            folder top debug sf g hf ha (Or.inl hv)
          rw [hev, appendedRow_drive] at hrow
          simp [appendedRow, List.findSome?] at hrow
        · by_cases hviz : viz = ""
          · subst hviz
            obtain ⟨-, hev⟩ := main_vision_fail env fname bucket sheet_id
              folder top debug sf g hf ha (Or.inr hv)
            rw [hev, appendedRow_drive] at hrow
            simp [appendedRow, List.findSome?] at hrow
          · by_cases hg : pyStrip (env.genaiText sf.data) = ""
            · obtain ⟨-, hev⟩ := main_genai_fail env fname bucket sheet_id
                folder top debug sf g viz hf ha hv hviz hg
              rw [hev, appendedRow_drive] at hrow
              simp [appendedRow, List.findSome?] at hrow
            · rcases hs : (sheet_append_row env sheet_id (buildRow bucket
                  folder sf viz (pyStrip (env.genaiText sf.data)))).fst
                  with _ | m
              · obtain ⟨hok, hev⟩ := main_sheet_fail env fname bucket
                  sheet_id folder top debug sf g viz hf ha hv hviz hg
                  (Or.inl hs)
                rw [hev, appendedRow_drive] at hrow
                simp [appendedRow, List.findSome?] at hrow
                rw [hok, ← hrow]
                constructor
                · intro h
                  exact absurd h (by simp)
                · rintro ⟨n, hn⟩
                  rw [hs] at hn
                  exact absurd hn (by simp)
              · match m, hs with
                | 0, hs =>
                  obtain ⟨hok, hev⟩ := main_sheet_fail env fname bucket
                    sheet_id folder top debug sf g viz hf ha hv hviz hg
                    (Or.inr hs)
                  rw [hev, appendedRow_drive] at hrow
                  simp [appendedRow, List.findSome?] at hrow
                  rw [hok, ← hrow]
                  constructor
                  · intro h
                    exact absurd h (by simp)
                  · rintro ⟨n, hn⟩
                    rw [hs] at hn
                    simp at hn
                | n + 1, hs =>
                  obtain ⟨hok, hev⟩ := main_success env fname bucket
                    sheet_id folder top debug sf g viz n hf ha hv hviz hg hs
                  rw [hev, appendedRow_drive] at hrow
                  simp [appendedRow, List.findSome?] at hrow
                  rw [hok, ← hrow]
                  exact ⟨fun _ => ⟨n, hs⟩, fun _ => rfl⟩

/-- C7 witness: a zero-cell response is returned as written and a positive
response makes the recorded run succeed. -/
theorem record_append_failure_witness :
    (sheet_append_row envZeroCells "SHEET" ["x"]).fst = some 0
    ∧ ((main envOk "photo.jpg" "my-bucket" "SHEET" "2024" 5 false).ok = true
      ↔ ∃ n, (sheet_append_row envOk "SHEET" ["2024",
          "=HYPERLINK(\"storage.cloud.google.com/my-bucket/2024/photo.jpg\", \"photo.jpg\")",
          "image/jpeg", "2024-01-01T00:00:00Z", "  0.00K", "(97.00%) Dog",
          "A dog sits in a park."]).fst = some (n + 1)) := by
  constructor
  · exact (record_append_failure.1 envZeroCells "SHEET" ["x"]).2 ⟨some 0⟩ rfl
  · exact record_append_failure.2 envOk "photo.jpg" "my-bucket" "SHEET"
      "2024" 5 false _ (by decide)

/-- C8: No rollback of the archive: the pipeline never issues a compensating
GCS delete, and when the Archive stage has succeeded but the run fails at a
later stage the object store was invoked exactly once. -/
theorem archive_no_rollback :
    ∀ (env : Env) (fname bucket sheet_id folder : String) (top : Nat)
      (debug : Bool),
      countGcsDelete
          (main env fname bucket sheet_id folder top debug).events = 0
      ∧ (∀ sf g, (drive_get_img env fname).fst = some sf →
          (gcs_blob_upload env (path_join folder sf.fname) bucket sf.data
            sf.mtype).fst = some g →
          (main env fname bucket sheet_id folder top debug).ok = false →
          countArchive
            (main env fname bucket sheet_id folder top debug).events = 1) := by
  intro env fname bucket sheet_id folder top debug
  constructor
  · rcases hf : (drive_get_img env fname).fst with _ | sf
    · rw [(main_fetch_none env fname bucket sheet_id folder top debug hf).2]
      simp [countGcsDelete, countP_isGcsDelete_drive]
    · rcases ha : (gcs_blob_upload env (path_join folder sf.fname) bucket
          sf.data sf.mtype).fst with _ | g
      · rw [(main_arch_none env fname bucket sheet_id folder top debug sf hf
          ha).2]
        simp [countGcsDelete, List.countP_append, countP_isGcsDelete_drive,
          Event.isGcsDelete]
      · rcases hv : (vision_label_img env sf.data top).fst with _ | viz
        · rw [(main_vision_fail env fname bucket sheet_id folder top debug
            sf g hf ha (Or.inl hv)).2]
          simp [countGcsDelete, List.countP_append,
            countP_isGcsDelete_drive, Event.isGcsDelete]
        · by_cases hviz : viz = ""
          · subst hviz
            rw [(main_vision_fail env fname bucket sheet_id folder top debug
              sf g hf ha (Or.inr hv)).2]
            simp [countGcsDelete, List.countP_append,
              countP_isGcsDelete_drive, Event.isGcsDelete]
          · by_cases hg : pyStrip (env.genaiText sf.data) = ""
            · rw [(main_genai_fail env fname bucket sheet_id folder top
                debug sf g viz hf ha hv hviz hg).2]
              simp [countGcsDelete, List.countP_append,
                countP_isGcsDelete_drive, Event.isGcsDelete]
            · rcases hs : (sheet_append_row env sheet_id (buildRow bucket
                  folder sf viz (pyStrip (env.genaiText sf.data)))).fst
                  with _ | m
              · rw [(main_sheet_fail env fname bucket sheet_id folder top
                  debug sf g viz hf ha hv hviz hg (Or.inl hs)).2]
                simp [countGcsDelete, List.countP_append,
                  countP_isGcsDelete_drive, Event.isGcsDelete]
              · match m, hs with
                | 0, hs =>
                  rw [(main_sheet_fail env fname bucket sheet_id folder top
                    debug sf g viz hf ha hv hviz hg (Or.inr hs)).2]
                  simp [countGcsDelete, List.countP_append,
                    countP_isGcsDelete_drive, Event.isGcsDelete]
                | n + 1, hs =>
                  rw [(main_success env fname bucket sheet_id folder top
                    debug sf g viz n hf ha hv hviz hg hs).2]
                  simp [countGcsDelete, List.countP_append,
                    countP_isGcsDelete_drive, Event.isGcsDelete]
  · intro sf g hf ha hok
    rcases hv : (vision_label_img env sf.data top).fst with _ | viz
    · rw [(main_vision_fail env fname bucket sheet_id folder top debug sf g
        hf ha (Or.inl hv)).2]
      simp [countArchive, List.countP_append, countP_isArchive_drive,
        Event.isArchive]
    · by_cases hviz : viz = ""
      · subst hviz
        rw [(main_vision_fail env fname bucket sheet_id folder top debug sf
          g hf ha (Or.inr hv)).2]
        simp [countArchive, List.countP_append, countP_isArchive_drive,
          Event.isArchive]
      · by_cases hg : pyStrip (env.genaiText sf.data) = ""
        · rw [(main_genai_fail env fname bucket sheet_id folder top debug sf
            g viz hf ha hv hviz hg).2]
          simp [countArchive, List.countP_append, countP_isArchive_drive,
            Event.isArchive]
        · rcases hs : (sheet_append_row env sheet_id (buildRow bucket folder
              sf viz (pyStrip (env.genaiText sf.data)))).fst with _ | m
          · rw [(main_sheet_fail env fname bucket sheet_id folder top debug
              sf g viz hf ha hv hviz hg (Or.inl hs)).2]
            simp [countArchive, List.countP_append, countP_isArchive_drive,
              Event.isArchive]
          · match m, hs with
            | 0, hs =>
              rw [(main_sheet_fail env fname bucket sheet_id folder top
                debug sf g viz hf ha hv hviz hg (Or.inr hs)).2]
              simp [countArchive, List.countP_append,
                countP_isArchive_drive, Event.isArchive]
            | n + 1, hs =>
              rw [(main_success env fname bucket sheet_id folder top debug
                sf g viz n hf ha hv hviz hg hs).1] at hok
              simp at hok

/-- C8 witness: a run that archives successfully and then fails at the
Record stage leaves exactly one object-store call and no delete. -/
theorem archive_no_rollback_witness :
    (main envZeroCells "photo.jpg" "my-bucket" "SHEET" "2024" 5 false).ok
        = false
    ∧ countArchive
        (main envZeroCells "photo.jpg" "my-bucket" "SHEET" "2024" 5
          false).events = 1
    ∧ countGcsDelete
        (main envZeroCells "photo.jpg" "my-bucket" "SHEET" "2024" 5
          false).events = 0 := by
  obtain ⟨c1, c2⟩ := archive_no_rollback envZeroCells "photo.jpg"
    "my-bucket" "SHEET" "2024" 5 false
  have hok : (main envZeroCells "photo.jpg" "my-bucket" "SHEET" "2024" 5
      false).ok = false := by decide
  exact ⟨hok, c2 ⟨"photo.jpg", "image/jpeg", "2024-01-01T00:00:00Z",
    [1, 2, 3], ""⟩ ⟨"my-bucket", "2024/photo.jpg"⟩ (by decide) (by decide)
    hok, c1⟩

/-- C10: an all-whitespace generative response strips to the empty string,
which the orchestrator treats as a Description-stage failure: the run fails
and Record-append is never invoked. -/
theorem empty_description_aborts :
    (∀ (env : Env) (media : List Nat),
       (env.genaiText media).data.all Char.isWhitespace = true →
       (genai_analyze_img env media).fst = "")
    ∧ (∀ (env : Env) (fname bucket sheet_id folder : String) (top : Nat)
        (debug : Bool) (sf : SourceFile) (g : GcsRsp) (viz : String),
        (drive_get_img env fname).fst = some sf →
        (gcs_blob_upload env (path_join folder sf.fname) bucket sf.data
          sf.mtype).fst = some g →
        (vision_label_img env sf.data top).fst = some viz → viz ≠ "" →
        (genai_analyze_img env sf.data).fst = "" →
        (main env fname bucket sheet_id folder top debug).ok = false
        ∧ countSheet
            (main env fname bucket sheet_id folder top debug).events
            = 0) := by
  constructor
  · intro env media h
    rw [genai_fst]
    unfold pyStrip
    have hnil : (env.genaiText media).data.dropWhile Char.isWhitespace
        = [] :=
      List.dropWhile_eq_nil_iff.mpr fun x hx => List.all_eq_true.mp h x hx
    rw [hnil]
    rfl
  · intro env fname bucket sheet_id folder top debug sf g viz hf ha hv hviz
      hg
    have hg' : pyStrip (env.genaiText sf.data) = "" :=
      (genai_fst env sf.data).symm.trans hg
    obtain ⟨hok, hev⟩ := main_genai_fail env fname bucket sheet_id folder
      top debug sf g viz hf ha hv hviz hg'
    refine ⟨hok, ?_⟩
    rw [hev]
    simp [countSheet, List.countP_append, countP_isSheet_drive,
      Event.isSheet]

/-- C10 witness: a whitespace-only generative reply in an otherwise
successful environment fails the run before any Sheets call. -/
theorem empty_description_aborts_witness :
    (envBlankGenai.genaiText [1, 2, 3]).data.all Char.isWhitespace = true
    ∧ (genai_analyze_img envBlankGenai [1, 2, 3]).fst = ""
    ∧ (main envBlankGenai "photo.jpg" "my-bucket" "SHEET" "2024" 5
        false).ok = false
    ∧ countSheet
        (main envBlankGenai "photo.jpg" "my-bucket" "SHEET" "2024" 5
          false).events = 0 := by
  obtain ⟨hok, hcnt⟩ := empty_description_aborts.2 envBlankGenai "photo.jpg"
    "my-bucket" "SHEET" "2024" 5 false
    ⟨"photo.jpg", "image/jpeg", "2024-01-01T00:00:00Z", [1, 2, 3], ""⟩
    ⟨"my-bucket", "2024/photo.jpg"⟩ "(97.00%) Dog" (by decide) (by decide)
    (by decide) (by decide) (by decide)
  exact ⟨by decide, empty_description_aborts.1 envBlankGenai [1, 2, 3]
    (by decide), hok, hcnt⟩

end AnalyzeGsimg
